import Mathlib

/-!
Verification of the JMESPath tree-walking evaluator
(`venv/lib/python2.7/site-packages/jmespath/visitor.py`).

The evaluator is shallowly embedded: JSON-like documents become the
inductive type `Value`, expression-tree nodes become `Node` (a tag
string, a payload, and a child list, mirroring the `{'type', 'value',
'children'}` dicts the Python code consumes), and the recursive
`TreeInterpreter.visit` dispatch becomes the fueled function `visit`.
Fuel models CPython's recursion limit: exhaustion surfaces as
`EvalErr.recursionError`, the analogue of Python's RuntimeError
"maximum recursion depth exceeded"; all other `EvalErr` constructors
correspond to concrete Python exceptions raised by the source.

Python 2.7 value semantics that the source leans on are embedded
explicitly:
  * `==` (`pyEq`): numeric kinds (bool/int/float) compare by numeric
    value (`True == 1`, `1 == 1.0`); mismatched non-numeric types are
    unequal; lists compare elementwise, dicts by key lookup.
    Floats are modelled as rationals, which is exact for every value
    the claims touch (0.0 and 1.0).
  * `is 0` / `is 1` identity tests (`isSmallIntObj`): CPython interns
    small ints, so identity with 0/1 holds exactly for the int objects
    0 and 1 — never for floats and never for booleans.
  * ordering (`pyCmp`): Python 2 never raises on cross-type
    comparisons; `default_3way_compare` orders None below everything,
    numeric kinds next (their type name is treated as the empty
    string), and the remaining builtin kinds by type name, i.e.
    'dict' < 'list' < 'str'.
-/

namespace Jmespath

/-- A JSON-like document value, plus the deferred-expression wrapper.

`exprefVal` models the `_Expression` object produced by `visit_expref`.
Its wrapped child node is dropped: the only consumer of the wrapper is
the function library (`jmespath/functions.py`), which is not part of
the sources; no modelled code ever reads it. -/
inductive Value where
  | null
  | bool (b : Bool)
  | int (n : Int)
  | float (q : ℚ)
  | str (s : String)
  | list (elems : List Value)
  | map (entries : List (String × Value))
  | exprefVal

/-- `isinstance(v, dict)` / "has a `.get` / `.values` method". -/
def Value.isMap : Value → Bool
  | .map _ => true
  | _ => false

/-- `isinstance(v, list)`. -/
def Value.isList : Value → Bool
  | .list _ => true
  | _ => false

/-- `v is None` (identity with the None singleton). -/
def Value.isNull : Value → Bool
  | .null => true
  | _ => false

/-- `v is False` (identity with the False singleton; `0 is False` is
False in CPython, so this is a constructor test, not numeric). -/
def Value.isBoolFalse : Value → Bool
  | .bool false => true
  | _ => false

/-- The numeric reading of a Python number-kind object (bool is an int
subclass with `True == 1`, `False == 0`); `none` for non-numbers. -/
def toNum : Value → Option ℚ
  | .bool b => some (if b then mkRat 1 1 else mkRat 0 1)
  | .int n => some (mkRat n 1)
  | .float q => some q
  | _ => none

/-- `x is 0 or x is 1`: identity with the interned int objects 0/1.
False for `0.0`/`1.0` (different objects) and for `True`/`False`
(bool objects, not the interned ints). -/
def isSmallIntObj : Value → Bool
  | .int 0 => true
  | .int 1 => true
  | _ => false

/-- `y is True or y is False`. -/
def isBoolObj : Value → Bool
  | .bool _ => true
  | _ => false

/-- `_is_special_integer_case` from visitor.py: comparing the int 0 or
the int 1 against a boolean (in either order) is the special case. -/
def isSpecialIntegerCase (x y : Value) : Bool :=
  if isSmallIntObj x then isBoolObj y
  else if isSmallIntObj y then isBoolObj x
  else false

/-- Dictionary lookup returning an `Option`, used by dict `==`. -/
def lookupEntry : String → List (String × Value) → Option Value
  | _, [] => none
  | k, (k2, v) :: es => if k2 = k then some v else lookupEntry k es

/-- `dict.get(k)`: the stored value, or None when the key is absent
(Python's `.get` default), used by `visit_field`. -/
def dictGet : String → List (String × Value) → Value
  | _, [] => .null
  | k, (k2, v) :: es => if k2 = k then v else dictGet k es

/-- `collected[k] = v`: insert-or-overwrite, used by
`visit_multi_select_dict`. -/
def setEntry (k : String) (v : Value) : List (String × Value) → List (String × Value)
  | [] => [(k, v)]
  | (k2, w) :: es => if k2 = k then (k, v) :: es else (k2, w) :: setEntry k v es

mutual

/-- Python 2 `==` on document values. Fueled: `none` is the (never
reached in practice) recursion limit. Numeric kinds compare by value;
`_Expression` wrappers are fresh objects each evaluation, so their
identity-based `==` against anything (including another wrapper) is
false, which the final catch-all delivers. -/
def pyEq : Nat → Value → Value → Option Bool
  | 0, _, _ => none
  | f+1, x, y =>
    match toNum x, toNum y with
    | some a, some b => some (decide (a = b))
    | _, _ =>
      match x, y with
      | .null, .null => some true
      | .str a, .str b => some (decide (a = b))
      | .list xs, .list ys => pyEqList f xs ys
      | .map es, .map fs =>
        if es.length = fs.length then pyEqEntries f es fs else some false
      | _, _ => some false

/-- Elementwise list `==`. -/
def pyEqList : Nat → List Value → List Value → Option Bool
  | 0, _, _ => none
  | _+1, [], [] => some true
  | _+1, [], _ :: _ => some false
  | _+1, _ :: _, [] => some false
  | f+1, x :: xs, y :: ys =>
    match pyEq f x y with
    | some true => pyEqList f xs ys
    | r => r

/-- Dict `==` after the length check: every key of the left dict must
be present in the right with an `==`-equal value. -/
def pyEqEntries : Nat → List (String × Value) → List (String × Value) → Option Bool
  | 0, _, _ => none
  | _+1, [], _ => some true
  | f+1, (k, v) :: es, fs =>
    match lookupEntry k fs with
    | none => some false
    | some w =>
      match pyEq f v w with
      | some true => pyEqEntries f es fs
      | r => r

end

/-- `_equals` from visitor.py: the bool-vs-0/1 special case is forced
to unequal, everything else is Python `==`. -/
def pyEquals (f : Nat) (x y : Value) : Option Bool :=
  if isSpecialIntegerCase x y then some false else pyEq f x y

/-- Rational three-way comparison via the executable `Rat.blt`. -/
def ratCmp (a b : ℚ) : Ordering :=
  if Rat.blt a b then .lt else if Rat.blt b a then .gt else .eq

/-- Cross-type rank of `default_3way_compare`: None below everything,
then numeric kinds (empty type name), then `_Expression` < 'dict' <
'list' < 'str' by type-name string order. -/
def typeRank : Value → Nat
  | .null => 0
  | .bool _ => 1
  | .int _ => 1
  | .float _ => 1
  | .exprefVal => 2
  | .map _ => 3
  | .list _ => 4
  | .str _ => 5

/-- Insertion of an entry into a key-sorted entry list. -/
def insentry (p : String × Value) : List (String × Value) → List (String × Value)
  | [] => [p]
  | q :: qs => if p.1 ≤ q.1 then p :: q :: qs else q :: insentry p qs

/-- Entries sorted by key, standing in for the deterministic
smallest-differing-key walk of Python 2 dict comparison. -/
def sortEntries : List (String × Value) → List (String × Value)
  | [] => []
  | p :: ps => insentry p (sortEntries ps)

mutual

/-- Python 2 three-way comparison (`cmp`) on document values: numeric
kinds by value, same builtin kinds by their own ordering, and
mismatched kinds by `typeRank`. Two `_Expression` wrappers compare by
object address; the model picks `.eq` (never exercised: no modelled
code orders wrappers). -/
def pyCmp : Nat → Value → Value → Option Ordering
  | 0, _, _ => none
  | f+1, x, y =>
    match toNum x, toNum y with
    | some a, some b => some (ratCmp a b)
    | _, _ =>
      match x, y with
      | .null, .null => some .eq
      | .str a, .str b => some (compare a b)
      | .list xs, .list ys => pyCmpList f xs ys
      | .map es, .map fs =>
        if es.length < fs.length then some .lt
        else if fs.length < es.length then some .gt
        else pyCmpEntries f (sortEntries es) (sortEntries fs)
      | .exprefVal, .exprefVal => some .eq
      | a, b => some (if typeRank a < typeRank b then .lt else .gt)

/-- Lexicographic list comparison. -/
def pyCmpList : Nat → List Value → List Value → Option Ordering
  | 0, _, _ => none
  | _+1, [], [] => some .eq
  | _+1, [], _ :: _ => some .lt
  | _+1, _ :: _, [] => some .gt
  | f+1, x :: xs, y :: ys =>
    match pyCmp f x y with
    | some .eq => pyCmpList f xs ys
    | r => r

/-- Equal-size dict comparison over key-sorted entries: first by the
differing key, then by that key's values. -/
def pyCmpEntries : Nat → List (String × Value) → List (String × Value) → Option Ordering
  | 0, _, _ => none
  | _+1, [], [] => some .eq
  | _+1, [], _ :: _ => some .lt
  | _+1, _ :: _, [] => some .gt
  | f+1, (k, v) :: es, (l, w) :: fs =>
    match compare k l with
    | .eq =>
      match pyCmp f v w with
      | some .eq => pyCmpEntries f es fs
      | r => r
    | o => some o

end

/-- Python truthiness (`bool(x)`): None, False, numeric zero, and the
empty string/list/dict are falsy; every other value (including the
`_Expression` wrapper) is truthy.  This is what
`visit_filter_projection` applies to the predicate result. -/
def pyTruthy : Value → Bool
  | .null => false
  | .bool b => b
  | .int n => decide (n ≠ 0)
  | .float q => decide (¬ q = mkRat 0 1)
  | .str s => decide (s ≠ "")
  | .list xs => !xs.isEmpty
  | .map es => !es.isEmpty
  | .exprefVal => true

/-- The truthiness of a fueled `==` result: the boolean itself (the
fuel-exhaustion case cannot arise at the constant fuel used below). -/
def okTrue : Option Bool → Bool
  | some b => b
  | none => false

/-- `_is_false` from visitor.py: equality checks (`==`) against `''`,
`[]` and `{}`, then identity checks (`is`) against None and False.
Each `==` here compares against a flat constant, so it can never
descend into sub-values; fuel 2 is always sufficient and exact. -/
def is_false (v : Value) : Bool :=
  okTrue (pyEq 2 v (.str "")) || okTrue (pyEq 2 v (.list [])) ||
    okTrue (pyEq 2 v (.map [])) || v.isNull || v.isBoolFalse

/-- An expression-tree node: the `{'type': ..., 'value': ..., 'children': ...}`
dict consumed by `TreeInterpreter.visit`. Tags without a payload carry
`Value.null`; a field name, comparator name or multi-select key is a
`Value.str`, an index is a `Value.int`, a literal is any `Value`. -/
structure Node where
  type : String
  value : Value
  children : List Node

/-- The errors the evaluator can propagate, each mirroring a concrete
Python exception of the source:
  * `notImplementedError`: `default_visit` on an unrecognized tag
    (`raise NotImplementedError("default_visit")`) — the distinguished
    malformed-tree error the design spec calls `InvalidNodeError`;
  * `keyError`: `COMPARATOR_FUNC[...]` on an unknown comparator name;
  * `indexError`: `node['children'][i]` on a too-short child list
    (never the in-range check of `visit_index`, which is caught);
  * `typeError`: `value[i]` with a non-integer index payload;
  * `functionError`: see `visit` on `function_expression`;
  * `recursionError`: CPython's recursion limit, modelled as fuel. -/
inductive EvalErr where
  | notImplementedError (msg : String)
  | keyError
  | indexError
  | typeError
  | functionError
  | recursionError

/-- `TreeInterpreter.COMPARATOR_FUNC`: the comparator table. `le` and
`lte` are both `operator.le`; `eq` is `_equals`; `ne` is its negation;
the ordering entries are Python 2's total (never-raising) comparisons.
`none` models the dict `KeyError` on an unknown name. -/
def COMPARATOR_FUNC : String → Option (Nat → Value → Value → Option Bool)
  | "le" => some fun f x y => (pyCmp f x y).map fun o => decide (o ≠ .gt)
  | "ne" => some fun f x y => (pyEquals f x y).map fun b => !b
  | "lt" => some fun f x y => (pyCmp f x y).map fun o => decide (o = .lt)
  | "lte" => some fun f x y => (pyCmp f x y).map fun o => decide (o ≠ .gt)
  | "eq" => some fun f x y => pyEquals f x y
  | "gt" => some fun f x y => (pyCmp f x y).map fun o => decide (o = .gt)
  | "gte" => some fun f x y => (pyCmp f x y).map fun o => decide (o ≠ .lt)
  | _ => none

/-- One level of `visit_flatten`'s merge loop: list elements are
spliced in, everything else is appended as-is. -/
def flattenOneLevel : List Value → List Value
  | [] => []
  | .list xs :: rest => xs ++ flattenOneLevel rest
  | x :: rest => x :: flattenOneLevel rest

/-- Python list indexing with negative-index support and the
`except IndexError: return None` of `visit_index`. -/
def pyIndex (xs : List Value) (i : Int) : Value :=
  let j : Int := if i < 0 then i + xs.length else i
  if 0 ≤ j ∧ j < (xs.length : Int) then xs.getD j.toNat Value.null else Value.null

mutual

/-- `TreeInterpreter.visit`: dispatch on the node's tag (the
`getattr(self, 'visit_%s' % node['type'], self.default_visit)` lookup;
the per-tag method cache is a pure memoization and is not modelled),
with every `visit_*` handler of visitor.py inlined at its tag.

The `function_expression` arm is modelled from the spec: the function
library (`jmespath/functions.py`) is absent from the sources, and per
the spec's function-call contract an unknown name raises a
`FunctionError`; with no functions modelled, every call resolves its
arguments and then fails with `functionError`. -/
def visit : Nat → Node → Value → Except EvalErr Value
  | 0, _, _ => .error .recursionError
  | f+1, n, v =>
    if n.type = "sub_expression" then visitSeq f n.children v
    else if n.type = "field" then
      match v with
      | .map es =>
        match n.value with
        | .str s => .ok (dictGet s es)
        | _ => .ok .null
      | _ => .ok .null
    else if n.type = "comparator" then
      match n.value with
      | .str name =>
        match COMPARATOR_FUNC name with
        | none => .error .keyError
        | some op =>
          match n.children with
          | c0 :: c1 :: _ =>
            match visit f c0 v with
            | .error e => .error e
            | .ok l =>
              match visit f c1 v with
              | .error e => .error e
              | .ok r =>
                match op f l r with
                | some b => .ok (.bool b)
                | none => .error .recursionError
          | _ => .error .indexError
      | _ => .error .keyError
    else if n.type = "current" then .ok v
    else if n.type = "expref" then
      match n.children with
      | _ :: _ => .ok .exprefVal
      | [] => .error .indexError
    else if n.type = "function_expression" then
      match visitArgs f n.children v with
      | .error e => .error e
      | .ok _ => .error .functionError
    else if n.type = "filter_projection" then
      match n.children with
      | c0 :: _ =>
        match visit f c0 v with
        | .error e => .error e
        | .ok base =>
          match base with
          | .list elems =>
            match n.children.get? 2 with
            | some c2 => Except.map Value.list (filterLoop f n.children c2 elems)
            | none => .error .indexError
          | _ => .ok .null
      | [] => .error .indexError
    else if n.type = "flatten" then
      match n.children with
      | c0 :: _ =>
        match visit f c0 v with
        | .error e => .error e
        | .ok base =>
          match base with
          | .list elems => .ok (.list (flattenOneLevel elems))
          | _ => .ok .null
      | [] => .error .indexError
    else if n.type = "identity" then .ok v
    else if n.type = "index" then
      match v with
      | .list elems =>
        match n.value with
        | .int i => .ok (pyIndex elems i)
        | .bool b => .ok (pyIndex elems (if b then 1 else 0))
        | _ => .error .typeError
      | _ => .ok .null
    else if n.type = "index_expression" then visitSeq f n.children v
    else if n.type = "key_val_pair" then
      match n.children with
      | c0 :: _ => visit f c0 v
      | [] => .error .indexError
    else if n.type = "literal" then .ok n.value
    else if n.type = "multi_select_dict" then
      if v.isNull then .ok .null
      else
        match msdLoop f n.children v [] with
        | .error e => .error e
        | .ok entries => .ok (.map entries)
    else if n.type = "multi_select_list" then
      if v.isNull then .ok .null
      else
        match visitArgs f n.children v with
        | .error e => .error e
        | .ok rs => .ok (.list rs)
    else if n.type = "or_expression" then
      match n.children with
      | c0 :: rest =>
        match visit f c0 v with
        | .error e => .error e
        | .ok matched =>
          if is_false matched then
            match rest with
            | c1 :: _ => visit f c1 v
            | [] => .error .indexError
          else .ok matched
      | [] => .error .indexError
    else if n.type = "pipe" then visitSeq f n.children v
    else if n.type = "projection" then
      match n.children with
      | c0 :: _ =>
        match visit f c0 v with
        | .error e => .error e
        | .ok base =>
          match base with
          | .list elems => Except.map Value.list (projLoop f n.children elems)
          | _ => .ok .null
      | [] => .error .indexError
    else if n.type = "value_projection" then
      match n.children with
      | c0 :: _ =>
        match visit f c0 v with
        | .error e => .error e
        | .ok base =>
          match base with
          | .map es => Except.map Value.list (projLoop f n.children (es.map Prod.snd))
          | _ => .ok .null
      | [] => .error .indexError
    else .error (.notImplementedError "default_visit")

/-- The chaining loop shared verbatim by `visit_sub_expression`,
`visit_index_expression` and `visit_pipe` (their Python bodies are
token-identical): each child's output is the next child's input. -/
def visitSeq : Nat → List Node → Value → Except EvalErr Value
  | 0, _, _ => .error .recursionError
  | _+1, [], v => .ok v
  | f+1, c :: cs, v =>
    match visit f c v with
    | .error e => .error e
    | .ok r => visitSeq f cs r

/-- The argument-resolution loop of `visit_multi_select_list` and
`visit_function_expression`: every child evaluated against the same
current value, results in child order. -/
def visitArgs : Nat → List Node → Value → Except EvalErr (List Value)
  | 0, _, _ => .error .recursionError
  | _+1, [], _ => .ok []
  | f+1, c :: cs, v =>
    match visit f c v with
    | .error e => .error e
    | .ok r =>
      match visitArgs f cs v with
      | .error e => .error e
      | .ok rs => .ok (r :: rs)

/-- The collect loop of `visit_projection` / `visit_value_projection`:
the projection child (`children[1]`, looked up per element exactly as
the source subscripts inside the loop) is applied to each element and
non-None results are kept in order. -/
def projLoop : Nat → List Node → List Value → Except EvalErr (List Value)
  | 0, _, _ => .error .recursionError
  | _+1, _, [] => .ok []
  | f+1, chs, e :: es =>
    match chs.get? 1 with
    | none => .error .indexError
    | some c1 =>
      match visit f c1 e with
      | .error err => .error err
      | .ok r =>
        match projLoop f chs es with
        | .error err => .error err
        | .ok rs => .ok (if r.isNull then rs else r :: rs)

/-- The loop of `visit_filter_projection`: the comparator child is
applied to each element as a Python-truthiness predicate; only for
passing elements is the projection child (`children[1]`) applied, and
non-None projected results are kept in order. -/
def filterLoop : Nat → List Node → Node → List Value → Except EvalErr (List Value)
  | 0, _, _, _ => .error .recursionError
  | _+1, _, _, [] => .ok []
  | f+1, chs, c2, e :: es =>
    match visit f c2 e with
    | .error err => .error err
    | .ok cond =>
      if pyTruthy cond then
        match chs.get? 1 with
        | none => .error .indexError
        | some c1 =>
          match visit f c1 e with
          | .error err => .error err
          | .ok r =>
            match filterLoop f chs c2 es with
            | .error err => .error err
            | .ok rs => .ok (if r.isNull then rs else r :: rs)
      else filterLoop f chs c2 es

/-- The build loop of `visit_multi_select_dict`: each child (a
`key_val_pair`) is evaluated against the current value and stored
under the key carried on the child node, later children overwriting
earlier equal keys. A non-string key payload is modelled as the
host-level `typeError` (document maps carry string keys only). -/
def msdLoop : Nat → List Node → Value → List (String × Value) → Except EvalErr (List (String × Value))
  | 0, _, _, _ => .error .recursionError
  | _+1, [], _, acc => .ok acc
  | f+1, c :: cs, v, acc =>
    match visit f c v with
    | .error e => .error e
    | .ok r =>
      match c.value with
      | .str k => msdLoop f cs v (setEntry k r acc)
      | _ => .error .typeError

end

/-- A literal node, as the parser builds it. -/
def litNode (v : Value) : Node := Node.mk "literal" v []

/-- A field-access node carrying the field name. -/
def fieldNode (s : String) : Node := Node.mk "field" (.str s) []

/-- A comparator node carrying the operator name and two operand
sub-expressions. -/
def cmpNode (o : String) (l r : Node) : Node := Node.mk "comparator" (.str o) [l, r]

/-- One dispatch step of `visit_flatten`, exposed for rewriting. -/
theorem visit_flatten_step (f : Nat) (p : Value) (c : Node) (rest : List Node) (v : Value) :
    visit (f+1) (Node.mk "flatten" p (c :: rest)) v =
      match visit f c v with
      | .error e => .error e
      | .ok base =>
        match base with
        | .list elems => .ok (.list (flattenOneLevel elems))
        | _ => .ok .null := rfl

/-- One dispatch step of `visit_value_projection`, exposed for
rewriting. -/
theorem visit_value_projection_step (f : Nat) (p : Value) (c : Node) (rest : List Node) (v : Value) :
    visit (f+1) (Node.mk "value_projection" p (c :: rest)) v =
      match visit f c v with
      | .error e => .error e
      | .ok base =>
        match base with
        | .map es => Except.map Value.list (projLoop f (c :: rest) (es.map Prod.snd))
        | _ => .ok .null := rfl

/-- C1: evaluating a `field` node on a non-map value, an `index` node
on a non-list value, a `flatten` node whose child evaluates to a
non-list, or a `value_projection` node whose child evaluates to a
non-map all produce `null` successfully — never an error — for every
document value, payload and child list. -/
theorem C1_navigational_total (f : Nat) (payload : Value) (chs : List Node)
    (c : Node) (rest : List Node) (v r : Value) :
    (v.isMap = false → visit (f+1) (Node.mk "field" payload chs) v = .ok .null) ∧
    (v.isList = false → visit (f+1) (Node.mk "index" payload chs) v = .ok .null) ∧
    (visit f c v = .ok r → r.isList = false →
      visit (f+1) (Node.mk "flatten" payload (c :: rest)) v = .ok .null) ∧
    (visit f c v = .ok r → r.isMap = false →
      visit (f+1) (Node.mk "value_projection" payload (c :: rest)) v = .ok .null) := by
  refine ⟨?_, ?_, ?_, ?_⟩
  · intro hv
    cases v <;> first | rfl | simp [Value.isMap] at hv
  · intro hv
    cases v <;> first | rfl | simp [Value.isList] at hv
  · intro hc hr
    rw [visit_flatten_step, hc]
    cases r <;> first | rfl | simp [Value.isList] at hr
  · intro hc hr
    rw [visit_value_projection_step, hc]
    cases r <;> first | rfl | simp [Value.isMap] at hr

/-- Closed instance of `C1_navigational_total`: field access on the
number 5, indexing into a string, flattening a map obtained from a
literal child, and value-projecting a list obtained from a literal
child each yield `null`. -/
theorem C1_navigational_total_witness :
    visit 2 (Node.mk "field" (.str "a") []) (.int 5) = .ok .null ∧
    visit 2 (Node.mk "index" (.int 0) []) (.str "not-a-list") = .ok .null ∧
    visit 2 (Node.mk "flatten" .null [litNode (.map [("a", .int 1)])]) .null = .ok .null ∧
    visit 2 (Node.mk "value_projection" .null [litNode (.list [.int 1])]) .null = .ok .null :=
  ⟨(C1_navigational_total 1 (.str "a") [] (litNode .null) [] (.int 5) .null).1 rfl,
   (C1_navigational_total 1 (.int 0) [] (litNode .null) [] (.str "not-a-list") .null).2.1 rfl,
   (C1_navigational_total 1 .null [] (litNode (.map [("a", .int 1)])) [] .null
      (.map [("a", .int 1)])).2.2.1 rfl rfl,
   (C1_navigational_total 1 .null [] (litNode (.list [.int 1])) [] .null
      (.list [.int 1])).2.2.2 rfl rfl⟩

/-- C2: `eq` is type-aware over boolean vs number kinds — comparing
`true` with `1` or `false` with `0` yields false while `1` vs `1`
yields true — and `ne` is pointwise the negation of the very same
`eq` evaluation, so `ne(true, 1)` is true. -/
theorem C2_eq_type_aware :
    visit 3 (cmpNode "eq" (litNode (.bool true)) (litNode (.int 1))) .null = .ok (.bool false) ∧
    visit 3 (cmpNode "eq" (litNode (.bool false)) (litNode (.int 0))) .null = .ok (.bool false) ∧
    visit 3 (cmpNode "eq" (litNode (.int 1)) (litNode (.int 1))) .null = .ok (.bool true) ∧
    visit 3 (cmpNode "ne" (litNode (.bool true)) (litNode (.int 1))) .null = .ok (.bool true) ∧
    (∀ (g : Nat) (x y w : Value),
      visit (g+1) (cmpNode "ne" (litNode x) (litNode y)) w =
        match visit (g+1) (cmpNode "eq" (litNode x) (litNode y)) w with
        | .ok (.bool b) => .ok (.bool (!b))
        | r => r) := by
  refine ⟨rfl, rfl, rfl, rfl, ?_⟩
  intro g x y w
  cases g with
  | zero => rfl
  | succ h =>
    have e1 : visit (h+2) (cmpNode "eq" (litNode x) (litNode y)) w =
        (match pyEquals (h+1) x y with
         | some b => .ok (.bool b)
         | none => .error .recursionError) := rfl
    have e2 : visit (h+2) (cmpNode "ne" (litNode x) (litNode y)) w =
        (match (pyEquals (h+1) x y).map (fun b => !b) with
         | some b => .ok (.bool b)
         | none => .error .recursionError) := rfl
    rw [e1, e2]
    cases pyEquals (h+1) x y <;> rfl

/-- C3 counterexample: the ordering comparators applied to mutually
incomparable operand types do NOT uniformly return false — `lt` on
the number 1 and the string "a" evaluates to true (Python 2 orders
every number below every string), so the claimed false result is
refuted at this input. -/
theorem C3_incomparable_counterexample :
    visit 3 (cmpNode "lt" (litNode (.int 1)) (litNode (.str "a"))) .null = .ok (.bool true) ∧
    visit 3 (cmpNode "lt" (litNode (.int 1)) (litNode (.str "a"))) .null ≠ .ok (.bool false) := by
  have h : visit 3 (cmpNode "lt" (litNode (.int 1)) (litNode (.str "a"))) .null
      = .ok (.bool true) := rfl
  refine ⟨h, ?_⟩
  rw [h]
  simp

/-- C3 (amended): evaluating `lt`, `lte`, `gt` or `gte` on operands of
mutually incomparable types never raises an error — it returns a
boolean — but the boolean reflects the host's total cross-type
ordering (null < numbers < maps < lists < strings) rather than being
uniformly false: for any number (int or float) against any string,
`lt`/`lte` return true and `gt`/`gte` return false, and with the
operands swapped `gt` returns true. -/
theorem C3_incomparable_total_ordering (f : Nat) (n : Int) (q : ℚ) (s : String) (w : Value) :
    visit (f+2) (cmpNode "lt" (litNode (.int n)) (litNode (.str s))) w = .ok (.bool true) ∧
    visit (f+2) (cmpNode "lte" (litNode (.int n)) (litNode (.str s))) w = .ok (.bool true) ∧
    visit (f+2) (cmpNode "gt" (litNode (.int n)) (litNode (.str s))) w = .ok (.bool false) ∧
    visit (f+2) (cmpNode "gte" (litNode (.int n)) (litNode (.str s))) w = .ok (.bool false) ∧
    visit (f+2) (cmpNode "lt" (litNode (.float q)) (litNode (.str s))) w = .ok (.bool true) ∧
    visit (f+2) (cmpNode "gt" (litNode (.str s)) (litNode (.int n))) w = .ok (.bool true) :=
  ⟨rfl, rfl, rfl, rfl, rfl, rfl⟩

theorem is_false_null : is_false .null = true := rfl

theorem is_false_bool (b : Bool) : is_false (.bool b) = !b := by
  cases b <;> rfl

theorem is_false_int (n : Int) : is_false (.int n) = false := rfl

theorem is_false_float (q : ℚ) : is_false (.float q) = false := rfl

theorem is_false_expref : is_false .exprefVal = false := rfl

theorem is_false_str (s : String) : is_false (.str s) = decide (s = "") := by
  show (decide (s = "") || false || false || false || false) = decide (s = "")
  simp

theorem is_false_list (xs : List Value) : is_false (.list xs) = xs.isEmpty := by
  cases xs <;> rfl

theorem is_false_map (es : List (String × Value)) : is_false (.map es) = es.isEmpty := by
  cases es <;> rfl

/-- `_is_false` holds exactly on the five-element falsy set of the
or-expression rule. -/
theorem is_false_iff (x : Value) :
    is_false x = true ↔
      (x = .str "" ∨ x = .list [] ∨ x = .map [] ∨ x = .null ∨ x = .bool false) := by
  cases x with
  | null => simp [is_false_null]
  | bool b => cases b <;> simp [is_false_bool]
  | int n => simp [is_false_int]
  | float q => simp [is_false_float]
  | str s => simp [is_false_str]
  | list xs => cases xs <;> simp [is_false_list]
  | map es => cases es <;> simp [is_false_map]
  | exprefVal => simp [is_false_expref]

/-- One dispatch step of `visit_or_expression` on a two-child node,
exposed for rewriting. -/
theorem visit_or_step (f : Nat) (p : Value) (c0 c1 : Node) (v : Value) :
    visit (f+1) (Node.mk "or_expression" p [c0, c1]) v =
      match visit f c0 v with
      | .error e => .error e
      | .ok matched => if is_false matched then visit f c1 v else .ok matched := rfl

/-- C4: an `or_expression` returns the left child's result whenever
that result is outside the falsy set, which is exactly
`{"", [], {}, null, false}` (in particular the number 0 is kept); only
for a falsy left result is the right child evaluated and returned.
The right child `c1` is universally quantified in the truthy case, so
the result is independent of it — the right child is never
evaluated. -/
theorem C4_or_expression (f : Nat) (payload : Value) (c0 c1 : Node) (v m : Value) :
    (∀ x : Value, is_false x = true ↔
      (x = .str "" ∨ x = .list [] ∨ x = .map [] ∨ x = .null ∨ x = .bool false)) ∧
    (visit f c0 v = .ok m → is_false m = false →
      visit (f+1) (Node.mk "or_expression" payload [c0, c1]) v = .ok m) ∧
    (visit f c0 v = .ok m → is_false m = true →
      visit (f+1) (Node.mk "or_expression" payload [c0, c1]) v = visit f c1 v) ∧
    visit 3 (Node.mk "or_expression" .null [litNode (.int 0), litNode (.str "fallback")]) .null
      = .ok (.int 0) ∧
    visit 3 (Node.mk "or_expression" .null [litNode (.str ""), litNode (.str "fallback")]) .null
      = .ok (.str "fallback") := by
  refine ⟨is_false_iff, ?_, ?_, rfl, rfl⟩
  · intro hc hm
    rw [visit_or_step, hc]
    show (if is_false m = true then visit f c1 v else Except.ok m) = Except.ok m
    rw [hm]
    simp
  · intro hc hm
    rw [visit_or_step, hc]
    show (if is_false m = true then visit f c1 v else Except.ok m) = visit f c1 v
    rw [hm]
    simp

/-- Closed instance of `C4_or_expression`: a truthy left result (the
number 0) is returned with the right child untouched, and a falsy left
result (the empty list) defers to the right child. -/
theorem C4_or_expression_witness :
    visit 2 (Node.mk "or_expression" .null [litNode (.int 0), litNode (.str "x")]) .null
      = .ok (.int 0) ∧
    visit 2 (Node.mk "or_expression" .null [litNode (.list []), litNode (.str "x")]) .null
      = visit 1 (litNode (.str "x")) .null :=
  ⟨(C4_or_expression 1 .null (litNode (.int 0)) (litNode (.str "x")) .null (.int 0)).2.1 rfl rfl,
   (C4_or_expression 1 .null (litNode (.list [])) (litNode (.str "x")) .null (.list [])).2.2.1
     rfl rfl⟩

/-- One dispatch step of `visit_filter_projection`, exposed for
rewriting. -/
theorem visit_filter_step (f : Nat) (p : Value) (c0 : Node) (rest : List Node) (v : Value) :
    visit (f+1) (Node.mk "filter_projection" p (c0 :: rest)) v =
      match visit f c0 v with
      | .error e => .error e
      | .ok base =>
        match base with
        | .list elems =>
          match (c0 :: rest).get? 2 with
          | some c2 => Except.map Value.list (filterLoop f (c0 :: rest) c2 elems)
          | none => .error .indexError
        | _ => .ok .null := rfl

/-- C5: a `filter_projection` whose left child evaluates to a non-list
returns null; on the base list `[{"a":1},{"a":2},{"a":3}]` with
predicate `a > 1` and projection `field "a"` it returns `[2, 3]`,
dropping failing elements and keeping surviving projections in
original order. -/
theorem C5_filter_projection (f : Nat) (payload : Value) (c0 : Node) (rest : List Node)
    (v r : Value) :
    (visit f c0 v = .ok r → r.isList = false →
      visit (f+1) (Node.mk "filter_projection" payload (c0 :: rest)) v = .ok .null) ∧
    visit 10 (Node.mk "filter_projection" .null
        [litNode (.list [.map [("a", .int 1)], .map [("a", .int 2)], .map [("a", .int 3)]]),
         fieldNode "a",
         cmpNode "gt" (fieldNode "a") (litNode (.int 1))]) .null
      = .ok (.list [.int 2, .int 3]) := by
  refine ⟨?_, rfl⟩
  intro hc hr
  rw [visit_filter_step, hc]
  cases r <;> first | rfl | simp [Value.isList] at hr

/-- Closed instance of `C5_filter_projection`: filtering over the
number 5 (not a list) yields null. -/
theorem C5_filter_projection_witness :
    visit 2 (Node.mk "filter_projection" .null
        [litNode (.int 5), fieldNode "a", litNode (.bool true)]) .null = .ok .null :=
  (C5_filter_projection 1 .null (litNode (.int 5)) [fieldNode "a", litNode (.bool true)]
    .null (.int 5)).1 rfl rfl

/-- C6: a `multi_select_list` on the current value null returns null
for every child list — in particular without evaluating any child —
while on a non-null current value it returns the list of all child
results in child order, as `visitArgs` computes them; concretely, on
`{"a":1,"b":2}` with children `field "a"`, `field "b"` it returns
`[1, 2]`. -/
theorem C6_multi_select_list (f : Nat) (payload : Value) (chs : List Node) (v : Value) :
    visit (f+1) (Node.mk "multi_select_list" payload chs) .null = .ok .null ∧
    (v.isNull = false →
      visit (f+1) (Node.mk "multi_select_list" payload chs) v =
        match visitArgs f chs v with
        | .error e => .error e
        | .ok rs => .ok (.list rs)) ∧
    (∀ (g : Nat) (c : Node) (cs : List Node) (w : Value),
      visitArgs (g+1) (c :: cs) w =
        match visit g c w with
        | .error e => .error e
        | .ok r =>
          match visitArgs g cs w with
          | .error e => .error e
          | .ok rs => .ok (r :: rs)) ∧
    visit 5 (Node.mk "multi_select_list" .null [fieldNode "a", fieldNode "b"])
        (.map [("a", .int 1), ("b", .int 2)]) = .ok (.list [.int 1, .int 2]) := by
  refine ⟨rfl, ?_, fun g c cs w => rfl, rfl⟩
  intro hv
  cases v <;> first | rfl | simp [Value.isNull] at hv

/-- Closed instance of `C6_multi_select_list`: on a non-null value the
node agrees with the `visitArgs` resolution of its children. -/
theorem C6_multi_select_list_witness :
    visit 3 (Node.mk "multi_select_list" .null [fieldNode "a"]) (.map [("a", .int 7)]) =
      match visitArgs 2 [fieldNode "a"] (.map [("a", .int 7)]) with
      | .error e => .error e
      | .ok rs => .ok (.list rs) :=
  (C6_multi_select_list 2 .null [fieldNode "a"] (.map [("a", .int 7)])).2.1 rfl

/-- The tags for which `TreeInterpreter` defines a `visit_*` method;
any other tag resolves to `default_visit`. -/
def recognizedTags : List String :=
  ["sub_expression", "field", "comparator", "current", "expref",
   "function_expression", "filter_projection", "flatten", "identity",
   "index", "index_expression", "key_val_pair", "literal",
   "multi_select_dict", "multi_select_list", "or_expression", "pipe",
   "projection", "value_projection"]

/-- C7: for every node whose tag is not a recognized node kind, and
every document value, evaluation fails with the distinguished
malformed-tree error raised by `default_visit` — never a value and
never a navigational null. -/
theorem C7_unknown_tag (f : Nat) (n : Node) (v : Value)
    (h : n.type ∉ recognizedTags) :
    visit (f+1) n v = .error (.notImplementedError "default_visit") := by
  obtain ⟨t, nv, chs⟩ := n
  simp only [recognizedTags, List.mem_cons, List.not_mem_nil, or_false] at h
  push_neg at h
  obtain ⟨h1, h2, h3, h4, h5, h6, h7, h8, h9, h10,
    h11, h12, h13, h14, h15, h16, h17, h18, h19⟩ := h
  simp only [visit, if_neg h1, if_neg h2, if_neg h3, if_neg h4, if_neg h5, if_neg h6,
    if_neg h7, if_neg h8, if_neg h9, if_neg h10, if_neg h11, if_neg h12, if_neg h13,
    if_neg h14, if_neg h15, if_neg h16, if_neg h17, if_neg h18, if_neg h19]

/-- Closed instance of `C7_unknown_tag` at the unrecognized tag
"slice". -/
theorem C7_unknown_tag_witness :
    visit 1 (Node.mk "slice" .null []) .null
      = .error (.notImplementedError "default_visit") :=
  C7_unknown_tag 0 (Node.mk "slice" .null []) .null (by decide)

/-- C8: `sub_expression`, `pipe` and `index_expression` nodes with the
same children evaluate identically at every fuel, every payload and
every input: all three feed each child's output into the next child
and return the last output, with zero children giving back the input
itself. -/
theorem C8_chain_equivalence (f : Nat) (p1 p2 p3 : Value) (cs : List Node) (c : Node)
    (v : Value) :
    visit f (Node.mk "sub_expression" p1 cs) v = visit f (Node.mk "pipe" p2 cs) v ∧
    visit f (Node.mk "sub_expression" p1 cs) v
      = visit f (Node.mk "index_expression" p3 cs) v ∧
    visit (f+2) (Node.mk "sub_expression" p1 []) v = .ok v ∧
    visit (f+2) (Node.mk "sub_expression" p1 (c :: cs)) v =
      (match visit f c v with
       | .error e => .error e
       | .ok r => visitSeq f cs r) := by
  refine ⟨?_, ?_, rfl, rfl⟩ <;> cases f <;> rfl

/-- C9: the boolean/number special case in `eq` covers only the exact
int objects 0 and 1 — `eq(true, 1.0)` and `eq(false, 0.0)` are true,
because the identity tests `is 0` / `is 1` do not fire for float
representations, letting plain numeric `==` decide. -/
theorem C9_float_not_special :
    visit 3 (cmpNode "eq" (litNode (.bool true)) (litNode (.float (mkRat 1 1)))) .null
      = .ok (.bool true) ∧
    visit 3 (cmpNode "eq" (litNode (.bool false)) (litNode (.float (mkRat 0 1)))) .null
      = .ok (.bool true) ∧
    isSpecialIntegerCase (.bool true) (.float (mkRat 1 1)) = false ∧
    isSpecialIntegerCase (.float (mkRat 1 1)) (.bool true) = false ∧
    isSpecialIntegerCase (.int 1) (.bool true) = true :=
  ⟨rfl, rfl, rfl, rfl, rfl⟩

/-- C10: the filter predicate is judged by host truthiness, not by the
or-expression falsy set: a predicate result of 0 excludes the element
(so a constant-0 predicate filters everything out), even though 0 is
truthy for or-expression short-circuiting and is returned there. -/
theorem C10_filter_predicate_truthiness :
    visit 10 (Node.mk "filter_projection" .null
        [litNode (.list [.map [("a", .int 1)]]), fieldNode "a", litNode (.int 0)]) .null
      = .ok (.list []) ∧
    pyTruthy (.int 0) = false ∧
    is_false (.int 0) = false ∧
    visit 3 (Node.mk "or_expression" .null [litNode (.int 0), litNode (.str "fb")]) .null
      = .ok (.int 0) :=
  ⟨rfl, rfl, rfl, rfl⟩

end Jmespath
